import Mathlib

/-!
Verification development for the streaming publisher loop of
examples/nats_camera_server.py.

The loop body (lines 131-181 of the source), the cleanup block (lines
184-206), the argument parsing (lines 212-243) and the process epilogue
(lines 249-261) are shallowly embedded below.  External collaborators
(camera, JPEG encoder, NATS client) are modelled by per-iteration
environments that record the outcome each collaborator produces; times are
rationals (seconds).
-/

namespace NatsCameraServer

/-- Outcome of one `cap.read()` call (source line 134): either a failure
(`ret` false or `frame is None`), or a frame whose width is `frame.shape[1]`
and height is `frame.shape[0]`. -/
inductive CamRead
  | fail
  | ok (w h : Nat)
  deriving DecidableEq

/-- Outcome of one `await nc.publish(...)` call (source line 152): success,
`nats.errors.ConnectionClosedError`, or any other exception. -/
inductive PubOutcome
  | ok
  | connClosed
  | otherError
  deriving DecidableEq

/-- Session configuration used inside the loop: the NATS url built at line
112, the target dimensions, and the JPEG quality.  Immutable for the whole
run. -/
structure Config where
  natsUrl : String
  width : Nat
  height : Nat
  jpeg_quality : Int
  deriving DecidableEq

/-- Environment of a single loop iteration: what each external collaborator
does during that iteration.  `isConnected` is the value of `nc.is_connected`
read at line 158 inside the `ConnectionClosedError` handler; `reconnectOk`
tells whether the `nc.connect` call at line 159 succeeds; `elapsed` is
`time.monotonic() - loop_start_time` measured at line 170; `shutdownMidSleep`
records whether the shutdown flag becomes set while the loop is suspended in
the cadence sleep of line 174 (the code never inspects the flag during that
suspension). -/
structure IterEnv where
  cam : CamRead
  encodeOk : Bool
  pub : PubOutcome
  isConnected : Bool
  reconnectOk : Bool
  elapsed : ℚ
  shutdownMidSleep : Bool
  deriving DecidableEq

/-- Observable steps performed by one loop iteration, in program order. -/
inductive Action
  | capture
  | warnCaptureFail
  | backoffSleep (d : ℚ)
  | resize (w h : Nat)
  | encode (w h : Nat) (q : Int)
  | publish (w h : Nat)
  | logConnClosed
  | reconnectAttempt (url : String) (timeoutSecs : ℚ)
  | logReconnected
  | logReconnectFail
  | logPublishError
  | warnEncodeFail
  | cadenceSleep (d : ℚ)
  | warnOverrun
  deriving DecidableEq

/-- True exactly on publish-attempt actions. -/
def Action.isPublish : Action → Bool
  | Action.publish _ _ => true
  | _ => false

/-- True exactly on reconnect-attempt actions. -/
def Action.isReconnect : Action → Bool
  | Action.reconnectAttempt _ _ => true
  | _ => false

set_option linter.unusedVariables false in
/-- Duration actually spent suspended in `await asyncio.sleep(sleep_duration)`
at source line 174.  The code issues a single plain `asyncio.sleep` and never
races it against `shutdown_event`, so the suspension lasts the full positive
`sleep_duration` whether or not the shutdown flag becomes set during it: the
`shutdownMidSleep` argument records that external fact but cannot influence
the result, exactly as in the source. -/
def cadenceSleptDuration (T elapsed : ℚ) (shutdownMidSleep : Bool) : ℚ :=
  if T - elapsed > 0 then T - elapsed else 0

/-- Cadence pacing tail of an iteration (source lines 170-181): with
`sleep_duration = T - elapsed`, sleep that long when positive; otherwise
proceed at once and emit the overload warning only when more than 5ms
(`sleep_duration < -0.005`) behind schedule. -/
def cadenceActs (T elapsed : ℚ) (shutdownMidSleep : Bool) : List Action :=
  let sd := T - elapsed
  if sd > 0 then [Action.cadenceSleep (cadenceSleptDuration T elapsed shutdownMidSleep)]
  else if sd < -(5/1000) then [Action.warnOverrun]
  else []

/-- Restatement, in the spec's vocabulary, of the amended cadence contract
for comparison with `cadenceActs`: when the iteration finished early the
loop suspends for exactly the remaining `T - elapsed`; otherwise it proceeds
immediately and warns exactly when the overrun `elapsed - T` exceeds a fixed
absolute threshold of 5 milliseconds, a constant independent of the
period. -/
def cadenceAmendedSpec (T elapsed : ℚ) : List Action :=
  if elapsed < T then [Action.cadenceSleep (T - elapsed)]
  else if 5/1000 < elapsed - T then [Action.warnOverrun]
  else []

/-- One iteration of the publishing loop body (source lines 132-181), given
the iteration's environment.  Returns the ordered action trace and whether
the iteration executes `break` (line 163).  A capture failure executes
`continue` at line 138, so it skips the cadence pacing; a `break` also skips
it.  The source resizes when `frame.shape[1] != args.width or
frame.shape[0] != args.height` (line 142); the condition appears below in
the equivalent negated form (keep the frame when both dimensions match,
resize otherwise). -/
def iterBody (cfg : Config) (T : ℚ) (e : IterEnv) : List Action × Bool :=
  match e.cam with
  | CamRead.fail =>
      ([Action.capture, Action.warnCaptureFail, Action.backoffSleep (1/10)], false)
  | CamRead.ok w h =>
      let fw := if w = cfg.width ∧ h = cfg.height then w else cfg.width
      let fh := if w = cfg.width ∧ h = cfg.height then h else cfg.height
      let pre :=
        [Action.capture]
          ++ (if w = cfg.width ∧ h = cfg.height then []
              else [Action.resize cfg.width cfg.height])
          ++ [Action.encode fw fh cfg.jpeg_quality]
      if e.encodeOk then
        match e.pub with
        | PubOutcome.ok =>
            (pre ++ [Action.publish fw fh]
               ++ cadenceActs T e.elapsed e.shutdownMidSleep, false)
        | PubOutcome.connClosed =>
            if e.isConnected then
              (pre ++ [Action.publish fw fh, Action.logConnClosed]
                 ++ cadenceActs T e.elapsed e.shutdownMidSleep, false)
            else if e.reconnectOk then
              (pre ++ [Action.publish fw fh, Action.logConnClosed,
                       Action.reconnectAttempt cfg.natsUrl 5, Action.logReconnected]
                 ++ cadenceActs T e.elapsed e.shutdownMidSleep, false)
            else
              (pre ++ [Action.publish fw fh, Action.logConnClosed,
                       Action.reconnectAttempt cfg.natsUrl 5, Action.logReconnectFail], true)
        | PubOutcome.otherError =>
            (pre ++ [Action.publish fw fh, Action.logPublishError]
               ++ cadenceActs T e.elapsed e.shutdownMidSleep, false)
      else
        (pre ++ [Action.warnEncodeFail]
           ++ cadenceActs T e.elapsed e.shutdownMidSleep, false)

/-- Reason the `while` loop stops running iterations. -/
inductive ExitReason
  | shutdown
  | reconnectFail
  | fuelOut
  deriving DecidableEq

/-- Fuel-bounded run of the `while not shutdown_event.is_set()` loop (source
line 131) starting at iteration index `i`.  `flag j` is the value of
`shutdown_event.is_set()` observed at the top of iteration `j`; `env j` is
the environment of iteration `j`.  Returns the indexed iteration traces and
the reason the run stopped. -/
def runLoop (cfg : Config) (T : ℚ) (flag : Nat → Bool) (env : Nat → IterEnv) :
    Nat → Nat → List (Nat × List Action) × ExitReason
  | _, 0 => ([], ExitReason.fuelOut)
  | i, Nat.succ n =>
      if flag i then ([], ExitReason.shutdown)
      else
        let r := iterBody cfg T (env i)
        if r.2 then ([(i, r.1)], ExitReason.reconnectFail)
        else
          let rest := runLoop cfg T flag env (i + 1) n
          ((i, r.1) :: rest.1, rest.2)

/-- State of the resources when the `finally` block at line 184 runs, plus
injected failures of the two awaited transport calls. -/
structure CleanupEnv where
  ncExists : Bool
  ncConnected : Bool
  drainFails : Bool
  closeFails : Bool
  capExists : Bool
  capOpened : Bool
  deriving DecidableEq

/-- Observable steps of the cleanup block. -/
inductive CleanupAction
  | drain
  | logDrainError
  | close
  | logCloseError
  | release
  deriving DecidableEq

/-- The `finally` cleanup block (source lines 184-206).  When the client
exists and reports connected: drain inside its own try (a failure is logged,
line 191), then close inside its own try (a failure is logged, line 196).
When the client exists but reports disconnected: close with every exception
swallowed by `pass` (lines 198-201) - attempted, but a failure produces no
log.  Finally the camera is released when it exists and is open (lines
203-204).  Every exception raised by drain or close is caught inside the
block, so nothing propagates and the release always runs. -/
def cleanup (e : CleanupEnv) : List CleanupAction :=
  ((if e.ncExists ∧ e.ncConnected then
      [CleanupAction.drain]
        ++ (if e.drainFails then [CleanupAction.logDrainError] else [])
        ++ [CleanupAction.close]
        ++ (if e.closeFails then [CleanupAction.logCloseError] else [])
    else if e.ncExists then
      [CleanupAction.close]
    else [])
    ++ (if e.capExists ∧ e.capOpened then [CleanupAction.release] else []))

/-- Command-line values as accepted by the `argparse` types at source lines
212-241: every option that matters to the loop is a plain `int` with no
range constraint, except `jpeg_quality`, declared with
`choices=range(0, 101)`. -/
structure RawArgs where
  nats_port : Int
  camera_index : Int
  width : Int
  height : Int
  fps : Int
  jpeg_quality : Int
  deriving DecidableEq

/-- Validation performed by `parser.parse_args()` on the integer options:
`argparse` rejects a `jpeg_quality` outside `range(0, 101)` (i.e. outside
0..100) and accepts every other integer value unconditionally - in
particular any `fps`, including 0 and negatives. -/
def parseArgs (a : RawArgs) : Option RawArgs :=
  if 0 ≤ a.jpeg_quality ∧ a.jpeg_quality ≤ 100 then some a else none

/-- Evaluation of `frame_duration = 1.0 / args.fps` (source line 128) under
Python semantics: division by zero raises `ZeroDivisionError` (modelled as
`none`); otherwise the period is `1 / fps`. -/
def frameDuration? (fps : Int) : Option ℚ :=
  if fps = 0 then none else some (1 / (fps : ℚ))

/-- The distinguishable ways `async_main` can finish. -/
inductive AsyncMainOutcome
  | cameraOpenFailed
  | natsNoServers
  | natsTimeoutErr
  | natsOtherConnectError
  | loopExited (r : ExitReason)
  | unexpectedError
  deriving DecidableEq

/-- What escapes `async_main` on each outcome, transcribed branch by branch
from the source: camera-open failure is a bare `return` (line 90); each NATS
connect failure is a bare `return` (lines 119, 122, 125); a loop exit falls
through to the `finally` block and returns normally; any unexpected
exception is caught by `except Exception` at line 182, logged, and the
function returns normally.  No branch raises out of `async_main`. -/
def asyncMainResult : AsyncMainOutcome → Except Unit Unit
  | AsyncMainOutcome.cameraOpenFailed => Except.ok ()
  | AsyncMainOutcome.natsNoServers => Except.ok ()
  | AsyncMainOutcome.natsTimeoutErr => Except.ok ()
  | AsyncMainOutcome.natsOtherConnectError => Except.ok ()
  | AsyncMainOutcome.loopExited _ => Except.ok ()
  | AsyncMainOutcome.unexpectedError => Except.ok ()

/-- Process exit status produced by the `__main__` epilogue (source lines
249-261): the result of `asyncio.run(async_main(args))` is discarded,
`KeyboardInterrupt` and `Exception` are both caught and logged, the
`finally` block only sets the flag and logs, and the script then falls off
the end of `__main__`, so the interpreter exits with status 0; a status 1
could only come from an uncaught exception, and none escapes. -/
def processExit (o : AsyncMainOutcome) : Nat :=
  match asyncMainResult o with
  | Except.ok _ => 0
  | Except.error _ => 0

/-- Concrete configuration matching the command-line defaults, used to
instantiate universally quantified theorems on a specific input. -/
def cfgW : Config :=
  Config.mk "nats://0.0.0.0:4222" 640 480 90

/-- Concrete iteration environment: the camera read fails. -/
def envCapFail : IterEnv :=
  IterEnv.mk CamRead.fail true PubOutcome.ok true true 1 false

/-- Concrete iteration environment: valid 640x480 frame, publish raises
`ConnectionClosedError`, the client still reports disconnected and the
reconnect attempt fails. -/
def envConnClosedDisc : IterEnv :=
  IterEnv.mk (CamRead.ok 640 480) true PubOutcome.connClosed false false 1 false

/-- Concrete iteration environment: valid 640x480 frame, publish raises
`ConnectionClosedError`, but the client already reports connected again. -/
def envConnClosedConn : IterEnv :=
  IterEnv.mk (CamRead.ok 640 480) true PubOutcome.connClosed true true 1 false

/-- Concrete iteration environment: valid 640x480 frame, publish raises a
non-disconnect exception. -/
def envOtherErr : IterEnv :=
  IterEnv.mk (CamRead.ok 640 480) true PubOutcome.otherError true true 1 false

/-- Concrete iteration environment: the camera yields a 1280x960 frame while
the target is 640x480. -/
def envMismatch : IterEnv :=
  IterEnv.mk (CamRead.ok 1280 960) true PubOutcome.ok true true 1 false

/-! Helper lemmas shared by the claim theorems. -/

/-- Every action emitted by the cadence pacing tail is a cadence sleep of the
computed duration, or the overload warning. -/
theorem cadenceActs_only_timing (T el : ℚ) (b : Bool) (a : Action)
    (ha : a ∈ cadenceActs T el b) :
    a = Action.cadenceSleep (cadenceSleptDuration T el b) ∨ a = Action.warnOverrun := by
  simp only [cadenceActs] at ha
  split_ifs at ha with h1 h2
  · simp only [List.mem_singleton] at ha
    exact Or.inl ha
  · simp only [List.mem_singleton] at ha
    exact Or.inr ha
  · simp at ha

/-- The cadence pacing tail contains no publish attempt. -/
theorem publish_not_mem_cadenceActs (T el : ℚ) (b : Bool) (w2 h2 : Nat) :
    Action.publish w2 h2 ∉ cadenceActs T el b := by
  intro ha
  rcases cadenceActs_only_timing T el b _ ha with h | h <;> exact Action.noConfusion h

/-- The cadence pacing tail contains no reconnect attempt. -/
theorem reconnect_not_mem_cadenceActs (T el : ℚ) (b : Bool) (u : String) (t : ℚ) :
    Action.reconnectAttempt u t ∉ cadenceActs T el b := by
  intro ha
  rcases cadenceActs_only_timing T el b _ ha with h | h <;> exact Action.noConfusion h

/-- The cadence pacing tail contains no reconnect-success log. -/
theorem logReconnected_not_mem_cadenceActs (T el : ℚ) (b : Bool) :
    Action.logReconnected ∉ cadenceActs T el b := by
  intro ha
  rcases cadenceActs_only_timing T el b _ ha with h | h <;> exact Action.noConfusion h

/-- The cadence pacing tail contains no reconnect-failure log. -/
theorem logReconnectFail_not_mem_cadenceActs (T el : ℚ) (b : Bool) :
    Action.logReconnectFail ∉ cadenceActs T el b := by
  intro ha
  rcases cadenceActs_only_timing T el b _ ha with h | h <;> exact Action.noConfusion h

/-- No action of the cadence pacing tail satisfies `isPublish`. -/
theorem cadenceActs_countP_publish (T el : ℚ) (b : Bool) :
    List.countP (fun a => a.isPublish) (cadenceActs T el b) = 0 := by
  refine List.countP_eq_zero.mpr ?_
  intro a ha
  rcases cadenceActs_only_timing T el b a ha with h | h <;> subst h <;> simp [Action.isPublish]

/-- No action of the cadence pacing tail satisfies `isReconnect`. -/
theorem cadenceActs_countP_reconnect (T el : ℚ) (b : Bool) :
    List.countP (fun a => a.isReconnect) (cadenceActs T el b) = 0 := by
  refine List.countP_eq_zero.mpr ?_
  intro a ha
  rcases cadenceActs_only_timing T el b a ha with h | h <;> subst h <;> simp [Action.isReconnect]

/-- Unfolding: a run whose first observed flag is set stops at once. -/
theorem runLoop_flag_true (cfg : Config) (T : ℚ) (flag : Nat → Bool)
    (env : Nat → IterEnv) (i n : Nat) (h : flag i = true) :
    runLoop cfg T flag env i (n + 1) = ([], ExitReason.shutdown) := by
  simp [runLoop, h]

/-- Unfolding: an iteration that breaks ends the run with `reconnectFail`. -/
theorem runLoop_break (cfg : Config) (T : ℚ) (flag : Nat → Bool)
    (env : Nat → IterEnv) (i n : Nat) (h : flag i = false)
    (hb : (iterBody cfg T (env i)).2 = true) :
    runLoop cfg T flag env i (n + 1)
      = ([(i, (iterBody cfg T (env i)).1)], ExitReason.reconnectFail) := by
  simp [runLoop, h, hb]

/-- Unfolding: a non-breaking iteration prepends its trace and the run goes
on with the next index. -/
theorem runLoop_cont (cfg : Config) (T : ℚ) (flag : Nat → Bool)
    (env : Nat → IterEnv) (i n : Nat) (h : flag i = false)
    (hb : (iterBody cfg T (env i)).2 = false) :
    runLoop cfg T flag env i (n + 1)
      = ((i, (iterBody cfg T (env i)).1) :: (runLoop cfg T flag env (i + 1) n).1,
         (runLoop cfg T flag env (i + 1) n).2) := by
  simp [runLoop, h, hb]

/-- Every iteration recorded by a run was produced by `iterBody` on that
iteration's environment, and started with the shutdown flag unset. -/
theorem runLoop_mem_trace (cfg : Config) (T : ℚ) (flag : Nat → Bool)
    (env : Nat → IterEnv) :
    ∀ (n i : Nat) (p : Nat × List Action), p ∈ (runLoop cfg T flag env i n).1 →
      flag p.1 = false ∧ p.2 = (iterBody cfg T (env p.1)).1 := by
  intro n
  induction n with
  | zero =>
      intro i p hp
      simp [runLoop] at hp
  | succ n ih =>
      intro i p hp
      by_cases hf : flag i = true
      · rw [runLoop_flag_true cfg T flag env i n hf] at hp
        simp at hp
      · rw [Bool.not_eq_true] at hf
        by_cases hb : (iterBody cfg T (env i)).2 = true
        · rw [runLoop_break cfg T flag env i n hf hb] at hp
          simp only [List.mem_singleton] at hp
          subst hp
          exact ⟨hf, rfl⟩
        · rw [Bool.not_eq_true] at hb
          rw [runLoop_cont cfg T flag env i n hf hb] at hp
          simp only [List.mem_cons] at hp
          rcases hp with rfl | hp
          · exact ⟨hf, rfl⟩
          · exact ih (i + 1) p hp

/-- A run over environments none of which breaks never exits with
`reconnectFail`. -/
theorem runLoop_no_reconnectFail (cfg : Config) (T : ℚ) (flag : Nat → Bool)
    (env : Nat → IterEnv) (hall : ∀ j, (iterBody cfg T (env j)).2 = false) :
    ∀ (n i : Nat), (runLoop cfg T flag env i n).2 ≠ ExitReason.reconnectFail := by
  intro n
  induction n with
  | zero =>
      intro i h
      simp [runLoop] at h
  | succ n ih =>
      intro i h
      by_cases hf : flag i = true
      · rw [runLoop_flag_true cfg T flag env i n hf] at h
        simp at h
      · rw [Bool.not_eq_true] at hf
        rw [runLoop_cont cfg T flag env i n hf (hall i)] at h
        exact ih (i + 1) h

/-- Every publish attempt in an iteration trace carries exactly the target
dimensions, and only an iteration with a usable captured frame publishes. -/
theorem iterBody_publish_shape (cfg : Config) (T : ℚ) (e : IterEnv) (w2 h2 : Nat)
    (ha : Action.publish w2 h2 ∈ (iterBody cfg T e).1) :
    w2 = cfg.width ∧ h2 = cfg.height ∧ e.cam ≠ CamRead.fail := by
  obtain ⟨cam, enc, pub, ic, rk, el, sms⟩ := e
  cases cam with
  | fail => simp [iterBody] at ha
  | ok w h =>
      have hmain : w2 = cfg.width ∧ h2 = cfg.height := by
        by_cases hm : w = cfg.width ∧ h = cfg.height
        · obtain ⟨rfl, rfl⟩ := hm
          cases enc <;> cases pub <;> cases ic <;> cases rk <;>
            simp [iterBody, publish_not_mem_cadenceActs] at ha <;> exact ha
        · cases enc <;> cases pub <;> cases ic <;> cases rk <;>
            simp [iterBody, hm, publish_not_mem_cadenceActs] at ha <;> exact ha
      exact ⟨hmain.1, hmain.2, by simp⟩

/-- The resampled width passed to the encoder always equals the target. -/
theorem resampled_width (w h W H : Nat) :
    (if w = W ∧ h = H then w else W) = W := by
  split_ifs with hm
  · exact hm.1
  · rfl

/-- The resampled height passed to the encoder always equals the target. -/
theorem resampled_height (w h W H : Nat) :
    (if w = W ∧ h = H then h else H) = H := by
  split_ifs with hm
  · exact hm.2
  · rfl

/-- An iteration whose capture fails never breaks out of the loop. -/
theorem iterBody_fail_snd (cfg : Config) (T : ℚ) (e : IterEnv)
    (h : e.cam = CamRead.fail) : (iterBody cfg T e).2 = false := by
  obtain ⟨cam, enc, pub, ic, rk, el, sms⟩ := e
  subst h
  rfl

/-! Claim theorems. -/

/-- C1, counterexample.  On the exit path where the transport handle exists
but reports disconnected, the cleanup block closes it inside
`except Exception: pass` (source lines 198-201): a failure raised by that
close is swallowed silently, not logged, contradicting the claim that a
failure raised during closing is logged. -/
theorem C1_counterexample :
    (CleanupEnv.mk true false false true false false).closeFails = true ∧
    CleanupAction.close ∈ cleanup (CleanupEnv.mk true false false true false false) ∧
    CleanupAction.logCloseError ∉ cleanup (CleanupEnv.mk true false false true false false) := by
  decide

/-- C1, amended.  Once the shutdown flag is observed, the loop issues no
further capture request (the run stops at the next top-of-iteration check);
on every exit path the transport is drained exactly when it reports
connected, then closed whenever the handle exists, then the frame source is
released whenever it is open, in that order; failures raised during
draining or closing never propagate and never prevent the subsequent steps
(release always runs), and they are logged on the connected path - but a
close failure on the disconnected path is silently swallowed, not
logged. -/
theorem C1_shutdown_cleanup_amended :
    (∀ (cfg : Config) (T : ℚ) (flag : Nat → Bool) (env : Nat → IterEnv) (i n : Nat),
        flag i = true → runLoop cfg T flag env i (n + 1) = ([], ExitReason.shutdown)) ∧
    (∀ e : CleanupEnv,
        (CleanupAction.drain ∈ cleanup e ↔ (e.ncExists ∧ e.ncConnected)) ∧
        (CleanupAction.close ∈ cleanup e ↔ e.ncExists) ∧
        (CleanupAction.release ∈ cleanup e ↔ (e.capExists ∧ e.capOpened)) ∧
        (List.Sublist [CleanupAction.drain, CleanupAction.close, CleanupAction.release]
            (cleanup e)
          ↔ (e.ncExists ∧ e.ncConnected ∧ e.capExists ∧ e.capOpened)) ∧
        (List.Sublist [CleanupAction.close, CleanupAction.release] (cleanup e)
          ↔ (e.ncExists ∧ e.capExists ∧ e.capOpened)) ∧
        (CleanupAction.logDrainError ∈ cleanup e
          ↔ (e.ncExists ∧ e.ncConnected ∧ e.drainFails)) ∧
        (CleanupAction.logCloseError ∈ cleanup e
          ↔ (e.ncExists ∧ e.ncConnected ∧ e.closeFails))) := by
  constructor
  · intro cfg T flag env i n h
    exact runLoop_flag_true cfg T flag env i n h
  · intro e
    obtain ⟨a, b, c, d, f, g⟩ := e
    cases a <;> cases b <;> cases c <;> cases d <;> cases f <;> cases g <;> decide

/-- C1, witness for the amended theorem at a concrete input. -/
theorem C1_shutdown_cleanup_witness :
    runLoop cfgW 1 (fun _ => true) (fun _ => envCapFail) 0 1 = ([], ExitReason.shutdown) ∧
    CleanupAction.release ∈ cleanup (CleanupEnv.mk true true true true true true) :=
  ⟨C1_shutdown_cleanup_amended.1 cfgW 1 (fun _ => true) (fun _ => envCapFail) 0 0 rfl,
   (C1_shutdown_cleanup_amended.2 (CleanupEnv.mk true true true true true true)).2.2.1.mpr
     (by decide)⟩

/-- C3, counterexample.  The code's overrun diagnostic threshold is a fixed
5 milliseconds, not roughly 0.5 percent of the period: at the default 30 FPS
the period is 1/30 s, an overrun of 3 ms exceeds 0.5 percent of that period
(about 0.17 ms) many times over, yet the code emits no diagnostic because
3 ms is below its fixed 5 ms threshold. -/
theorem C3_counterexample :
    (5/1000 : ℚ) * (1/30) < 3/1000 ∧
    Action.warnOverrun ∉ cadenceActs (1/30) (1/30 + 3/1000) false := by
  constructor
  · norm_num
  · intro ha
    simp only [cadenceActs] at ha
    norm_num at ha

/-- C3, amended.  For every completed iteration with period `T` and measured
`elapsed`: if `elapsed < T` the loop suspends for exactly `T - elapsed`; if
`elapsed ≥ T` it proceeds immediately, emitting the non-fatal diagnostic
exactly when the overrun exceeds a fixed absolute threshold of 5 ms
(`sleep_duration < -0.005`), not a fraction of the period.  The cadence tail
is also unaffected by the shutdown flag being set mid-sleep. -/
theorem C3_cadence_amended (T elapsed : ℚ) (b : Bool) :
    cadenceActs T elapsed b = cadenceAmendedSpec T elapsed := by
  simp only [cadenceActs, cadenceAmendedSpec, cadenceSleptDuration]
  split_ifs <;> first
    | rfl
    | (exfalso; linarith)

/-- C6, counterexample.  When the frame source cannot be opened, `async_main`
executes a bare `return` (line 90) and the `__main__` epilogue exits the
interpreter normally, so the process exit status is 0, not non-zero as the
claim states. -/
theorem C6_counterexample : processExit AsyncMainOutcome.cameraOpenFailed = 0 := rfl

/-- C6, amended.  The process exit status is 0 on every outcome: clean
shutdown via signal, camera open failure, transport connect failure at
startup, and unrecoverable reconnect failure all exit with status 0; the
outcomes are distinguished only in log output, never in the exit status. -/
theorem C6_exitStatus_amended (o : AsyncMainOutcome) : processExit o = 0 := by
  cases o <;> rfl

/-- C7, counterexample.  The cadence suspension is a single plain
`asyncio.sleep` that never observes the shutdown flag: with period 1 s and
zero elapsed work, the remaining sleep is 1 s and the loop suspends for that
full second even when the shutdown flag becomes set during the suspension,
contradicting the claim that it never blocks for the full remaining
duration after the flag is set. -/
theorem C7_counterexample :
    (0:ℚ) < (1:ℚ) - 0 ∧ ¬ cadenceSleptDuration 1 0 true < (1:ℚ) - 0 := by
  constructor
  · norm_num
  · simp [cadenceSleptDuration]

/-- C7, amended.  The cadence sleep is not cancellable by the shutdown flag:
the suspended duration is the full positive `T - elapsed` and is independent
of whether the flag becomes set mid-sleep; the flag takes effect only at the
top-of-loop check of the next iteration, where the run then stops without
starting that iteration. -/
theorem C7_sleep_amended (T elapsed : ℚ) (b₁ b₂ : Bool) (cfg : Config)
    (flag : Nat → Bool) (env : Nat → IterEnv) (i n : Nat)
    (hpos : 0 < T - elapsed) (hf0 : flag i = false) (hf1 : flag (i + 1) = true)
    (hnb : (iterBody cfg T (env i)).2 = false) :
    cadenceSleptDuration T elapsed b₁ = cadenceSleptDuration T elapsed b₂ ∧
    cadenceSleptDuration T elapsed b₁ = T - elapsed ∧
    runLoop cfg T flag env i (n + 2)
      = ([(i, (iterBody cfg T (env i)).1)], ExitReason.shutdown) := by
  refine ⟨rfl, ?_, ?_⟩
  · simp [cadenceSleptDuration, hpos]
  · rw [runLoop_cont cfg T flag env i (n + 1) hf0 hnb,
        runLoop_flag_true cfg T flag env (i + 1) n hf1]

/-- C7, witness for the amended theorem at a concrete input. -/
theorem C7_sleep_amended_witness :
    cadenceSleptDuration 1 0 true = cadenceSleptDuration 1 0 false ∧
    cadenceSleptDuration 1 0 true = 1 - 0 ∧
    runLoop cfgW 1 (fun j => decide (1 ≤ j)) (fun _ => envCapFail) 0 2
      = ([(0, (iterBody cfgW 1 envCapFail).1)], ExitReason.shutdown) :=
  C7_sleep_amended 1 0 true false cfgW (fun j => decide (1 ≤ j))
    (fun _ => envCapFail) 0 0 (by norm_num) (by decide) (by decide) (by decide)

/-- C8, counterexample.  Argument parsing accepts `--fps 0` (the `fps`
option has no range constraint), and the loop's period computation
`1.0 / args.fps` then raises `ZeroDivisionError`: the configured cadence is
not validated to be positive before the loop starts. -/
theorem C8_counterexample :
    (parseArgs (RawArgs.mk 4222 0 640 480 0 90)).isSome = true ∧
    frameDuration? 0 = none := by
  constructor
  · decide
  · rfl

/-- C8, amended.  At configuration time, argument parsing rejects exactly
the encoder qualities outside 0..100 (via `choices=range(0, 101)`); the
cadence is not validated: any integer `fps` is accepted, and the period
computation `1 / fps` is well-defined exactly when `fps ≠ 0` (for `fps = 0`
it raises a division-by-zero error before the loop begins). -/
theorem C8_validation_amended (a : RawArgs) :
    ((parseArgs a).isSome ↔ 0 ≤ a.jpeg_quality ∧ a.jpeg_quality ≤ 100) ∧
    ((frameDuration? a.fps).isSome ↔ a.fps ≠ 0) := by
  constructor
  · simp only [parseArgs]
    split_ifs with h <;> simp [h]
  · simp only [frameDuration?]
    split_ifs with h <;> simp [h]

/-- C2, confirmed.  When a publish attempt raises the transport's
connection-closed error, the iteration logs it and attempts exactly one
reconnect - to the originally configured endpoint with the bounded 5 s
timeout - and only when the connectivity flag still reports disconnected;
the iteration makes exactly one publish attempt (the failed payload is not
retried), the iteration breaks exactly when the flag reports disconnected
and the reconnect fails, and in that case the run ends at once with
`reconnectFail` (no second reconnect attempt, no retry). -/
theorem C2_bounded_reconnect (cfg : Config) (T : ℚ) (e : IterEnv) (w h : Nat)
    (hcam : e.cam = CamRead.ok w h) (henc : e.encodeOk = true)
    (hpub : e.pub = PubOutcome.connClosed) :
    Action.logConnClosed ∈ (iterBody cfg T e).1 ∧
    List.countP (fun a => a.isReconnect) (iterBody cfg T e).1
      = (if e.isConnected then 0 else 1) ∧
    (e.isConnected = false →
        Action.reconnectAttempt cfg.natsUrl 5 ∈ (iterBody cfg T e).1) ∧
    List.countP (fun a => a.isPublish) (iterBody cfg T e).1 = 1 ∧
    (iterBody cfg T e).2 = (!e.isConnected && !e.reconnectOk) ∧
    (∀ (flag : Nat → Bool) (env : Nat → IterEnv) (i n : Nat),
        flag i = false → env i = e → e.isConnected = false → e.reconnectOk = false →
        runLoop cfg T flag env i (n + 1)
          = ([(i, (iterBody cfg T e).1)], ExitReason.reconnectFail)) := by
  obtain ⟨cam, enc, pub, ic, rk, el, sms⟩ := e
  subst hcam
  subst henc
  subst hpub
  refine ⟨?_, ?_, ?_, ?_, ?_, ?_⟩
  · cases ic <;> cases rk <;> simp [iterBody]
  · by_cases hm : w = cfg.width ∧ h = cfg.height <;> cases ic <;> cases rk <;>
      simp [iterBody, hm, Action.isReconnect, List.countP_cons, List.countP_append,
            cadenceActs_countP_reconnect]
    all_goals
      intro a ha
      rcases cadenceActs_only_timing _ _ _ a ha with hx | hx <;> subst hx <;> rfl
  · intro hic
    subst hic
    cases rk <;> simp [iterBody]
  · by_cases hm : w = cfg.width ∧ h = cfg.height <;> cases ic <;> cases rk <;>
      simp [iterBody, hm, Action.isPublish, List.countP_cons, List.countP_append,
            cadenceActs_countP_publish]
    all_goals
      intro a ha
      rcases cadenceActs_only_timing _ _ _ a ha with hx | hx <;> subst hx <;> rfl
  · cases ic <;> cases rk <;> simp [iterBody]
  · intro flag env i n hf he hic hrk
    subst hic
    subst hrk
    have hb : (iterBody cfg T (env i)).2 = true := by
      rw [he]
      simp [iterBody]
    have hres := runLoop_break cfg T flag env i n hf hb
    rw [he] at hres
    exact hres

/-- C2, witness for the theorem at a concrete input: valid frame, publish
raises connection-closed, client still disconnected, reconnect fails. -/
theorem C2_bounded_reconnect_witness :
    Action.logConnClosed ∈ (iterBody cfgW 1 envConnClosedDisc).1 ∧
    runLoop cfgW 1 (fun _ => false) (fun _ => envConnClosedDisc) 0 3
      = ([(0, (iterBody cfgW 1 envConnClosedDisc).1)], ExitReason.reconnectFail) :=
  ⟨(C2_bounded_reconnect cfgW 1 envConnClosedDisc 640 480 rfl rfl rfl).1,
   (C2_bounded_reconnect cfgW 1 envConnClosedDisc 640 480 rfl rfl rfl).2.2.2.2.2
     (fun _ => false) (fun _ => envConnClosedDisc) 0 2 rfl rfl rfl rfl⟩

/-- C9, confirmed.  When a publish attempt fails with any exception other
than the connection-closed error, the iteration logs the error and does not
break, and the run records the iteration and continues with the next
one. -/
theorem C9_other_publish_failure (cfg : Config) (T : ℚ) (e : IterEnv) (w h : Nat)
    (hcam : e.cam = CamRead.ok w h) (henc : e.encodeOk = true)
    (hpub : e.pub = PubOutcome.otherError) :
    Action.logPublishError ∈ (iterBody cfg T e).1 ∧
    (iterBody cfg T e).2 = false ∧
    (∀ (flag : Nat → Bool) (env : Nat → IterEnv) (i n : Nat),
        env i = e → flag i = false →
        runLoop cfg T flag env i (n + 1)
          = ((i, (iterBody cfg T e).1) :: (runLoop cfg T flag env (i + 1) n).1,
             (runLoop cfg T flag env (i + 1) n).2)) := by
  obtain ⟨cam, enc, pub, ic, rk, el, sms⟩ := e
  subst hcam
  subst henc
  subst hpub
  refine ⟨?_, ?_, ?_⟩
  · simp [iterBody]
  · simp [iterBody]
  · intro flag env i n he hf
    have hb : (iterBody cfg T (env i)).2 = false := by
      rw [he]
      simp [iterBody]
    have hres := runLoop_cont cfg T flag env i n hf hb
    rw [he] at hres
    exact hres

/-- C9, witness for the theorem at a concrete input. -/
theorem C9_other_publish_failure_witness :
    Action.logPublishError ∈ (iterBody cfgW 1 envOtherErr).1 ∧
    (iterBody cfgW 1 envOtherErr).2 = false :=
  ⟨(C9_other_publish_failure cfgW 1 envOtherErr 640 480 rfl rfl rfl).1,
   (C9_other_publish_failure cfgW 1 envOtherErr 640 480 rfl rfl rfl).2.1⟩

/-- C10, confirmed.  When publish raises the connection-closed error but the
connectivity flag already reports connected again at the check (line 158),
the iteration performs no reconnect call at all, logs only the disconnect
(neither a reconnect success nor a reconnect failure can occur), does not
break, and the run continues with the next iteration. -/
theorem C10_already_reconnected (cfg : Config) (T : ℚ) (e : IterEnv) (w h : Nat)
    (hcam : e.cam = CamRead.ok w h) (henc : e.encodeOk = true)
    (hpub : e.pub = PubOutcome.connClosed) (hic : e.isConnected = true) :
    Action.logConnClosed ∈ (iterBody cfg T e).1 ∧
    List.countP (fun a => a.isReconnect) (iterBody cfg T e).1 = 0 ∧
    Action.logReconnected ∉ (iterBody cfg T e).1 ∧
    Action.logReconnectFail ∉ (iterBody cfg T e).1 ∧
    (iterBody cfg T e).2 = false ∧
    (∀ (flag : Nat → Bool) (env : Nat → IterEnv) (i n : Nat),
        env i = e → flag i = false →
        runLoop cfg T flag env i (n + 1)
          = ((i, (iterBody cfg T e).1) :: (runLoop cfg T flag env (i + 1) n).1,
             (runLoop cfg T flag env (i + 1) n).2)) := by
  obtain ⟨cam, enc, pub, ic, rk, el, sms⟩ := e
  subst hcam
  subst henc
  subst hpub
  subst hic
  refine ⟨?_, ?_, ?_, ?_, ?_, ?_⟩
  · simp [iterBody]
  · by_cases hm : w = cfg.width ∧ h = cfg.height <;>
      simp [iterBody, hm, Action.isReconnect, List.countP_cons, List.countP_append]
    all_goals
      intro a ha
      rcases cadenceActs_only_timing _ _ _ a ha with hx | hx <;> subst hx <;> rfl
  · intro ha
    by_cases hm : w = cfg.width ∧ h = cfg.height <;>
      simp [iterBody, hm, logReconnected_not_mem_cadenceActs] at ha
  · intro ha
    by_cases hm : w = cfg.width ∧ h = cfg.height <;>
      simp [iterBody, hm, logReconnectFail_not_mem_cadenceActs] at ha
  · simp [iterBody]
  · intro flag env i n he hf
    have hb : (iterBody cfg T (env i)).2 = false := by
      rw [he]
      simp [iterBody]
    have hres := runLoop_cont cfg T flag env i n hf hb
    rw [he] at hres
    exact hres

/-- C10, witness for the theorem at a concrete input. -/
theorem C10_already_reconnected_witness :
    Action.logConnClosed ∈ (iterBody cfgW 1 envConnClosedConn).1 ∧
    (iterBody cfgW 1 envConnClosedConn).2 = false :=
  ⟨(C10_already_reconnected cfgW 1 envConnClosedConn 640 480 rfl rfl rfl rfl).1,
   (C10_already_reconnected cfgW 1 envConnClosedConn 640 480 rfl rfl rfl rfl).2.2.2.2.1⟩

/-- C4, confirmed.  An iteration whose capture fails logs a warning, sleeps
the fixed 0.1 s backoff (a constant independent of the cadence period `T`,
which is arbitrary here), publishes nothing and does not break; a run over
environments whose captures all fail never exits with `reconnectFail`
(capture failures alone never terminate the loop); and across any run, no
publish attempt ever comes from an iteration whose capture failed. -/
theorem C4_capture_failure (cfg : Config) (T : ℚ) (e : IterEnv)
    (hcam : e.cam = CamRead.fail) :
    iterBody cfg T e
      = ([Action.capture, Action.warnCaptureFail, Action.backoffSleep (1/10)], false) ∧
    (∀ (flag : Nat → Bool) (env : Nat → IterEnv),
        (∀ j, (env j).cam = CamRead.fail) →
        ∀ (i n : Nat), (runLoop cfg T flag env i n).2 ≠ ExitReason.reconnectFail) ∧
    (∀ (flag : Nat → Bool) (env : Nat → IterEnv) (i n : Nat)
        (p : Nat × List Action) (w2 h2 : Nat),
        p ∈ (runLoop cfg T flag env i n).1 → Action.publish w2 h2 ∈ p.2 →
        (env p.1).cam ≠ CamRead.fail) := by
  obtain ⟨cam, enc, pub, ic, rk, el, sms⟩ := e
  subst hcam
  refine ⟨rfl, ?_, ?_⟩
  · intro flag env hall i n
    exact runLoop_no_reconnectFail cfg T flag env
      (fun j => iterBody_fail_snd cfg T (env j) (hall j)) n i
  · intro flag env i n p w2 h2 hp hpub
    have hmem := (runLoop_mem_trace cfg T flag env n i p hp).2
    rw [hmem] at hpub
    exact (iterBody_publish_shape cfg T (env p.1) w2 h2 hpub).2.2

/-- C4, witness for the theorem at a concrete input: a capture-failure
iteration has exactly the warn-and-backoff trace, and a run of five
all-failing iterations does not exit with `reconnectFail`. -/
theorem C4_capture_failure_witness :
    iterBody cfgW 1 envCapFail
      = ([Action.capture, Action.warnCaptureFail, Action.backoffSleep (1/10)], false) ∧
    (runLoop cfgW 1 (fun _ => false) (fun _ => envCapFail) 0 5).2
      ≠ ExitReason.reconnectFail :=
  ⟨(C4_capture_failure cfgW 1 envCapFail rfl).1,
   (C4_capture_failure cfgW 1 envCapFail rfl).2.1 (fun _ => false)
     (fun _ => envCapFail) (fun _ => rfl) 0 5⟩

/-- C5, confirmed.  An iteration whose captured frame differs from the
target dimensions resamples it to the target and proceeds to encode the
resampled frame at the configured quality (the mismatch is not an error);
every publish attempt - in this iteration and across every run - carries
exactly the configured target dimensions. -/
theorem C5_resample (cfg : Config) (T : ℚ) (e : IterEnv) (w h : Nat)
    (hcam : e.cam = CamRead.ok w h) (hmm : ¬ (w = cfg.width ∧ h = cfg.height)) :
    Action.resize cfg.width cfg.height ∈ (iterBody cfg T e).1 ∧
    Action.encode cfg.width cfg.height cfg.jpeg_quality ∈ (iterBody cfg T e).1 ∧
    (∀ w2 h2, Action.publish w2 h2 ∈ (iterBody cfg T e).1 →
        w2 = cfg.width ∧ h2 = cfg.height) ∧
    (∀ (flag : Nat → Bool) (env : Nat → IterEnv) (i n : Nat)
        (p : Nat × List Action) (w2 h2 : Nat),
        p ∈ (runLoop cfg T flag env i n).1 → Action.publish w2 h2 ∈ p.2 →
        w2 = cfg.width ∧ h2 = cfg.height) := by
  obtain ⟨cam, enc, pub, ic, rk, el, sms⟩ := e
  subst hcam
  refine ⟨?_, ?_, ?_, ?_⟩
  · cases enc <;> cases pub <;> cases ic <;> cases rk <;> simp [iterBody, hmm]
  · cases enc <;> cases pub <;> cases ic <;> cases rk <;> simp [iterBody, hmm]
  · intro w2 h2 hpub
    have hs := iterBody_publish_shape cfg T
      ⟨CamRead.ok w h, enc, pub, ic, rk, el, sms⟩ w2 h2 hpub
    exact ⟨hs.1, hs.2.1⟩
  · intro flag env i n p w2 h2 hp hpub
    have hmem := (runLoop_mem_trace cfg T flag env n i p hp).2
    rw [hmem] at hpub
    have hs := iterBody_publish_shape cfg T (env p.1) w2 h2 hpub
    exact ⟨hs.1, hs.2.1⟩

/-- C5, witness for the theorem at a concrete input: a 1280x960 frame with a
640x480 target is resampled and encoded at the target dimensions. -/
theorem C5_resample_witness :
    Action.resize cfgW.width cfgW.height ∈ (iterBody cfgW 1 envMismatch).1 ∧
    Action.encode cfgW.width cfgW.height cfgW.jpeg_quality
      ∈ (iterBody cfgW 1 envMismatch).1 :=
  ⟨(C5_resample cfgW 1 envMismatch 1280 960 rfl (by decide)).1,
   (C5_resample cfgW 1 envMismatch 1280 960 rfl (by decide)).2.1⟩

end NatsCameraServer
